import Mathlib

/-!
# Shallow embedding of `src/scrape.py`

The program is a paginated job-listing scraper.  This file embeds its
data model and operations in Lean:

* Python strings are Lean `String`s (a structure over `List Char`);
  the primitives used by the source (`s[2:]`, `s.split(sep)`,
  `str.format`, `range`) are modelled char-by-char below.
* The two external libraries (`requests.get`, `BeautifulSoup ...
  find_all("h3", class_="s-18")` / attribute access) are modelled as an
  environment `Env` of oracles: a fetch oracle mapping a URL to an HTTP
  response, and a parse oracle mapping a response body to the list of
  matched `<h3 class="s-18">` headings together with their (optional)
  nested anchor and its (optional) `href` attribute.
* Generators are modelled by their full-iteration semantics: iterating
  a value produces an effect trace (HTTP requests issued, bodies
  parsed) and either a list of produced values or a raised error.
  Calling a generator function merely allocates a suspended generator
  object and runs none of its body; this Python semantic fact is
  reflected in `Value.iterate` / `genexpEPU_iterate` below.
-/

/-- Python single-character `s.split(sep)` on a list of characters.
It always returns a non-empty list; splitting the empty string gives
`[[]]`, matching Python where `''.split(sep) == ['']`. -/
def pySplit (sep : Char) : List Char → List (List Char)
  | [] => [[]]
  | c :: cs =>
    let rest := pySplit sep cs
    if c = sep then [] :: rest
    else (c :: rest.headI) :: rest.tail

/-- Lines 22-23 of `src/scrape.py`:
`def unwrap_url(href): return href[2:].split('?')[0]`.
`href[2:]` is slicing (total: drops the first two characters), the
subscript `[0]` takes the head of the non-empty list that `split`
returns. -/
def unwrap_url (href : String) : String :=
  String.mk ((pySplit '?' (href.toList.drop 2)).headI)

/-- The same function with the Python subscript `[0]` modelled as a
fallible head access (`IndexError` would be `none`); used to state that
`unwrap_url` never raises. -/
def unwrap_url? (href : String) : Option String :=
  ((pySplit '?' (href.toList.drop 2)).head?).map String.mk

/-- Python `range(start, stop, step)` for a positive `step`: the
ascending arithmetic progression from `start` with `ceil((stop-start)/step)`
terms, all below `stop`. -/
def pyRange (start stop step : Nat) : List Nat :=
  (List.range ((stop - start + (step - 1)) / step)).map (fun i => start + step * i)

/-- Helper for `str.format` with one positional slot: replace the first
occurrence of the two-character slot in the template with `arg`. -/
def formatAux (arg : List Char) : List Char → List Char
  | '\x7b' :: '\x7d' :: rest => arg ++ rest
  | c :: rest => c :: formatAux arg rest
  | [] => []

/-- Python `template.format(arg)` for a template with a single empty
positional slot and no other brace characters (true of the base URL in
the source). -/
def pyFormat1 (template arg : String) : String :=
  String.mk (formatAux arg.toList template.toList)

/-- Line 33 of `src/scrape.py`: the listing-page URL template. -/
def rozeeBase : String :=
  "https://www.rozee.pk/category/software-web-development-jobs/?fpn=\x7b\x7d"

/-- The template with the slot removed: every formatted listing URL is
this prefix followed by the decimal offset. -/
def rozeePrefix : String :=
  "https://www.rozee.pk/category/software-web-development-jobs/?fpn="

/-- Line 34 of `src/scrape.py`:
`urls = (base.format(fpn) for fpn in range(0, 765, 20))`, with
`total_jobs = 765` and `pg_interval = 20` from lines 19-20.  The
generator is modelled by the list of URLs it yields. -/
def listingUrls : List String :=
  (pyRange 0 765 20).map (fun fpn => pyFormat1 rozeeBase (toString fpn))

/-- An HTTP response as the source reads it: `r.status_code` and
`r.text` (line 25-27). -/
structure Response where
  status_code : Nat
  text : String
  deriving DecidableEq

/-- The nested anchor of a matched heading, as accessed on line 30:
`p.a['href']`.  `href?` is `none` when the anchor has no `href`
attribute (Python raises `KeyError` there). -/
structure ATag where
  href? : Option String
  deriving DecidableEq

/-- One element of `s.find_all("h3", class_="s-18")` (line 28).  `a` is
`none` when the heading contains no anchor (Python's `p.a` is `None`
and subscripting it raises). -/
structure H3 where
  a : Option ATag
  deriving DecidableEq

/-- The external world: the `requests.get` fetch oracle and the
BeautifulSoup parse oracle mapping a response body to the headings
matched by `find_all("h3", class_="s-18")`. -/
structure Env where
  fetch : String → Response
  find_all_h3_s18 : String → List H3

/-- The runtime errors the source can raise: the `assert` on line 26
(carrying `(r.status_code, r.text)`), the missing-anchor lookup and the
missing-`href` key lookup on line 30. -/
inductive PyError where
  | assertionError (status : Nat) (body : String)
  | attributeError
  | keyError (key : String)
  | typeError (got expected : Nat)
  deriving DecidableEq

/-- The Python values that reach `print` in this program: strings, a
suspended `extract_posting_urls(url)` generator object, and the
suspended generator expression of line 35. -/
inductive Value where
  | vstr (s : String)
  | vgenEPU (url : String)
  | vgenexp
  deriving DecidableEq

/-- Whether a value is a generator object (hence prints as
`<generator object ...>` rather than as a posting URL). -/
def Value.isGen : Value → Bool
  | .vstr _ => false
  | .vgenEPU _ => true
  | .vgenexp => true

/-- The observable effects of a computation: the URLs fetched by
`requests.get`, in order, and the response bodies handed to
BeautifulSoup, in order. -/
structure Trace where
  requests : List String
  parses : List String
  deriving DecidableEq

def Trace.nil : Trace := ⟨[], []⟩

def Trace.append (t u : Trace) : Trace :=
  ⟨t.requests ++ u.requests, t.parses ++ u.parses⟩

/-- Fully iterating the generator `extract_posting_urls(url)`
(lines 24-31): issue one GET for `url`, assert the status is 200
(raising with the status code and body otherwise), parse the body,
and for each matched heading yield `unwrap_url` of its anchor's
`href` — raising if the anchor or the attribute is missing. -/
def extractPostingUrlsIterate (env : Env) (url : String) :
    Trace × Except PyError (List Value) :=
  let r := env.fetch url
  if r.status_code = 200 then
    (⟨[url], [r.text]⟩,
      (env.find_all_h3_s18 r.text).mapM (fun p =>
        match p.a with
        | none => .error .attributeError
        | some a =>
          match a.href? with
          | none => .error (.keyError "href")
          | some h => .ok (.vstr (unwrap_url h))))
  else
    (⟨[url], []⟩, .error (.assertionError r.status_code r.text))

/-- Fully iterating the generator expression
`(extract_posting_urls(url) for url in urls)` of line 35: for each
listing URL it CALLS the generator function, which in Python allocates
a suspended generator object and executes none of its body — so no
request is issued and nothing is parsed. -/
def genexpEPU_iterate : Trace × Except PyError (List Value) :=
  (Trace.nil, .ok (listingUrls.map Value.vgenEPU))

/-- Fully iterating a value (`iter(v)` exhausted).  Iterating a string
yields its characters; iterating a suspended generator runs its body. -/
def Value.iterate (env : Env) : Value → Trace × Except PyError (List Value)
  | .vstr s => (Trace.nil, .ok (s.toList.map (fun c => .vstr (String.mk [c]))))
  | .vgenEPU url => extractPostingUrlsIterate env url
  | .vgenexp => genexpEPU_iterate

/-- `itertools.chain(*args)`: iterate each argument in turn and yield
its elements, in order.  The elements produced by the arguments are
yielded as-is, never themselves iterated. -/
def chain (env : Env) (args : List Value) : Trace × Except PyError (List Value) :=
  args.foldl (fun acc argv =>
    match acc with
    | (t, .error e) => (t, .error e)
    | (t, .ok vs) =>
      match argv.iterate env with
      | (t2, .error e) => (t.append t2, .error e)
      | (t2, .ok ws) => (t.append t2, .ok (vs ++ ws)))
    (Trace.nil, .ok [])

/-- The outcome of running `collect_postings()`: the values passed to
`print` (one line each), the effect trace, and normal exit (`.ok`) or
an uncaught error. -/
structure ProgResult where
  printed : List Value
  trace : Trace
  exit : Except PyError Unit

/-- Lines 35-37 of `src/scrape.py`:
`jobs = it.chain(extract_posting_urls(url) for url in urls)` — note
`chain` receives the generator expression as its SINGLE argument —
followed by `for j in jobs: print(j)`. -/
def collect_postings_run (env : Env) : ProgResult :=
  match chain env [Value.vgenexp] with
  | (t, .error e) => ⟨[], t, .error e⟩
  | (t, .ok vs) => ⟨vs, t, .ok ()⟩

/-- What the specification says the flattened output is: fetch and
extract each page in listing order and concatenate the per-page lists
of normalized posting URLs. -/
def intendedOutput (env : Env) : Except PyError (List Value) :=
  (listingUrls.mapM (fun u => (extractPostingUrlsIterate env u).2)).map List.flatten

/-- The listing URL for offset 0 (the first page fetched by the
intended program). -/
def url0 : String := pyFormat1 rozeeBase (toString 0)

/-- The listing URL for offset 20 (the second page). -/
def url1 : String := pyFormat1 rozeeBase (toString 20)

/-- A response body standing for the offset-0 page of the end-to-end
scenario (two matching headings). -/
def body0 : String := "page-with-two-postings"

/-- A response body standing for a listing page with no matching
headings. -/
def emptyBody : String := "page-with-no-postings"

/-- Mock environment for the end-to-end scenario: offset 0 serves two
matching headings with anchors `./job/abc?ref=1` and `./job/def`; every
other offset serves a page with no matching headings; every response
has status 200. -/
def env3 : Env :=
  { fetch := fun u => if u = url0 then ⟨200, body0⟩ else ⟨200, emptyBody⟩
  , find_all_h3_s18 := fun t =>
      if t = body0 then
        [⟨some ⟨some "./job/abc?ref=1"⟩⟩, ⟨some ⟨some "./job/def"⟩⟩]
      else [] }

/-- A second body for the order-preservation scenario (one more
posting on the second page). -/
def body1 : String := "page-with-one-posting"

/-- Mock environment with two non-empty pages: offset 0 yields
`./a1?x=1` and `./a2`, offset 20 yields `./b1`, all later offsets are
empty; the concatenation in page order is `a1, a2, b1`. -/
def env1 : Env :=
  { fetch := fun u =>
      if u = url0 then ⟨200, body0⟩
      else if u = url1 then ⟨200, body1⟩
      else ⟨200, emptyBody⟩
  , find_all_h3_s18 := fun t =>
      if t = body0 then [⟨some ⟨some "./a1?x=1"⟩⟩, ⟨some ⟨some "./a2"⟩⟩]
      else if t = body1 then [⟨some ⟨some "./b1"⟩⟩]
      else [] }

/-- Mock environment where the offset-0 fetch returns HTTP 404 with
body `Not Found` and every other fetch succeeds with an empty
listing. -/
def env404 : Env :=
  { fetch := fun u => if u = url0 then ⟨404, "Not Found"⟩ else ⟨200, emptyBody⟩
  , find_all_h3_s18 := fun _ => [] }

/-- Mock environment where the offset-0 page contains a matched heading
with no nested anchor (`p.a` is `None`). -/
def envNoAnchor : Env :=
  { fetch := fun u => if u = url0 then ⟨200, body0⟩ else ⟨200, emptyBody⟩
  , find_all_h3_s18 := fun t => if t = body0 then [⟨none⟩] else [] }

/-- Mock environment where the offset-0 page contains a matched heading
whose anchor lacks the `href` attribute. -/
def envNoHref : Env :=
  { fetch := fun u => if u = url0 then ⟨200, body0⟩ else ⟨200, emptyBody⟩
  , find_all_h3_s18 := fun t => if t = body0 then [⟨some ⟨none⟩⟩] else [] }

/-- Line 7 of `src/scrape.py`: the parameter list of
`def __init__(title, url, description)` exactly as written — it omits
`self`. -/
def postingInitParams : List String := ["title", "url", "description"]

/-- Line 12 of `src/scrape.py`: the parameter list of
`def format_row()` exactly as written — empty, again omitting
`self`. -/
def postingFormatRowParams : List String := []

/-- Python positional-argument binding: a call binds the positional
arguments to the parameter names one-to-one and raises `TypeError`
when the counts differ. -/
def bindPositional (params : List String) (args : List Value) :
    Except PyError (List (String × Value)) :=
  if params.length = args.length then .ok (params.zip args)
  else .error (.typeError args.length params.length)

/-- Evaluating `Posting(t, u, d)` (lines 6-10): `type.__call__`
allocates the new instance and invokes `__init__` with the instance
prepended to the caller's three arguments. -/
def postingInstantiate (inst t u d : Value) :
    Except PyError (List (String × Value)) :=
  bindPositional postingInitParams [inst, t, u, d]

/-- Evaluating `p.format_row()` (lines 12-13): the bound method call
prepends the receiver to the (empty) argument list. -/
def postingFormatRowCall (inst : Value) :
    Except PyError (List (String × Value)) :=
  bindPositional postingFormatRowParams [inst]

instance {ε α : Type} [DecidableEq ε] [DecidableEq α] :
    DecidableEq (Except ε α) := fun a b =>
  match a, b with
  | .error e, .error f => decidable_of_iff (e = f) (by simp)
  | .error _, .ok _ => isFalse (fun h => Except.noConfusion h)
  | .ok _, .error _ => isFalse (fun h => Except.noConfusion h)
  | .ok x, .ok y => decidable_of_iff (x = y) (by simp)

/-! ## Theorems -/

theorem pySplit_ne_nil (sep : Char) (cs : List Char) : pySplit sep cs ≠ [] := by
  cases cs with
  | nil => simp [pySplit]
  | cons c cs =>
    simp only [pySplit]
    split <;> simp

theorem collect_postings_run_eq (env : Env) :
    collect_postings_run env =
      ⟨listingUrls.map Value.vgenEPU, Trace.nil, .ok ()⟩ := by
  simp [collect_postings_run, chain, Value.iterate, genexpEPU_iterate,
    Trace.append, Trace.nil]

/-- C5: the listing-page URL sequence has exactly one URL per offset in
0, 20, ..., 760 — 39 = ceil(765/20) values in strictly ascending order,
no duplicates, none at or above 765 — and each URL is the base template
with the slot replaced by the decimal offset. -/
theorem c5_pagination_and_template :
    pyRange 0 765 20 = (List.range 39).map (fun i => 20 * i) ∧
    (pyRange 0 765 20).length = (765 + (20 - 1)) / 20 ∧
    List.Pairwise (· < ·) (pyRange 0 765 20) ∧
    (pyRange 0 765 20).Nodup ∧
    (pyRange 0 765 20).all (· < 765) = true ∧
    listingUrls = (pyRange 0 765 20).map (fun n => rozeePrefix ++ toString n) := by
  refine ⟨by decide, by decide, by decide, by decide, by decide, by decide⟩

/-- C6: normalization strips the first two characters and truncates at
the first question mark: `./foo/bar?x=1&y=2` and `./foo/bar` both
normalize to `foo/bar`. -/
theorem c6_normalization_examples :
    unwrap_url "./foo/bar?x=1&y=2" = "foo/bar" ∧
    unwrap_url "./foo/bar" = "foo/bar" := by
  refine ⟨by decide, by decide⟩

/-- C9: `unwrap_url` is total — the subscript after `split` can never
hit an empty list, so every input yields a string — and any input of
length at most two normalizes to the empty string. -/
theorem c9_unwrap_url_total (href : String) :
    unwrap_url? href = some (unwrap_url href) ∧
    (href.length ≤ 2 → unwrap_url href = "") := by
  constructor
  · cases h : pySplit '?' (href.toList.drop 2) with
    | nil => exact absurd h (pySplit_ne_nil _ _)
    | cons a l =>
      unfold unwrap_url? unwrap_url
      rw [h]
      rfl
  · intro hlen
    have hdrop : List.drop 2 href.data = [] := by
      have hl : href.data.length ≤ 2 := hlen
      exact List.drop_eq_nil_of_le hl
    show String.mk ((pySplit '?' (href.toList.drop 2)).headI) = ""
    rw [show href.toList = href.data from rfl, hdrop]
    rfl

/-- Witness for C9 at the concrete input `./`. -/
theorem c9_witness :
    unwrap_url? "./" = some (unwrap_url "./") ∧ unwrap_url "./" = "" :=
  ⟨(c9_unwrap_url_total "./").1, (c9_unwrap_url_total "./").2 (by decide)⟩

/-- C10: instantiating `Posting` always raises: `__init__` declares
three parameters but a call `Posting(t, u, d)` passes the instance plus
three arguments, a `TypeError`; likewise a bound `format_row()` call
passes one argument to a zero-parameter function. -/
theorem c10_posting_never_instantiable (inst t u d : Value) :
    postingInstantiate inst t u d = .error (.typeError 4 3) ∧
    postingFormatRowCall inst = .error (.typeError 1 0) := by
  refine ⟨rfl, rfl⟩

/-- C2: `itertools.chain` receives the line-35 generator expression as
its single argument, so the final loop iterates over the 39 suspended
per-page generator objects themselves: no HTTP request is issued,
nothing is parsed, exactly 39 lines are printed, each a generator
object rather than a posting URL, and the program exits normally —
whatever the environment. -/
theorem c2_chain_single_argument_bug (env : Env) :
    (collect_postings_run env).printed = listingUrls.map Value.vgenEPU ∧
    (collect_postings_run env).printed.length = 39 ∧
    (collect_postings_run env).printed.all Value.isGen = true ∧
    (collect_postings_run env).trace.requests = [] ∧
    (collect_postings_run env).trace.parses = [] ∧
    (collect_postings_run env).exit = .ok () := by
  rw [collect_postings_run_eq]
  exact ⟨rfl, by decide, by decide, rfl, rfl, rfl⟩

/-- C1: refuted as stated — in the two-page environment `env1` the
intended flattening (per-page posting lists concatenated in page order)
is `a1, a2, b1`, but the program prints the 39 suspended generator
objects instead, so the printed sequence is not that concatenation. -/
theorem c1_output_not_concatenation :
    intendedOutput env1 =
      .ok [Value.vstr "a1", Value.vstr "a2", Value.vstr "b1"] ∧
    (collect_postings_run env1).printed = listingUrls.map Value.vgenEPU ∧
    (collect_postings_run env1).printed ≠
      [Value.vstr "a1", Value.vstr "a2", Value.vstr "b1"] := by
  exact ⟨by decide, by decide, by decide⟩

/-- C3: refuted as stated — under the end-to-end mock environment
`env3` the per-page extraction would yield exactly `job/abc` and
`job/def`, and the program does exit normally, but it prints 39
generator objects, not those two lines. -/
theorem c3_end_to_end_scenario_diverges :
    intendedOutput env3 =
      .ok [Value.vstr "job/abc", Value.vstr "job/def"] ∧
    (collect_postings_run env3).exit = .ok () ∧
    (collect_postings_run env3).printed.all Value.isGen = true ∧
    (collect_postings_run env3).printed ≠
      [Value.vstr "job/abc", Value.vstr "job/def"] := by
  exact ⟨by decide, by decide, by decide, by decide⟩

/-- C4: refuted as stated — the line-26 assert would indeed abort with
the status code and body when the offset-0 fetch returns 404 `Not
Found`, but the run never consumes the generator, so it issues no
request, prints 39 generator lines and exits normally. -/
theorem c4_non200_not_fatal :
    (extractPostingUrlsIterate env404 url0).2 =
      .error (.assertionError 404 "Not Found") ∧
    (collect_postings_run env404).exit = .ok () ∧
    (collect_postings_run env404).trace.requests = [] ∧
    (collect_postings_run env404).printed.length = 39 := by
  exact ⟨by decide, by decide, by decide, by decide⟩

/-- C7: refuted as stated — a matched heading without an anchor (or an
anchor without `href`) would make line 30 raise during extraction, but
the run never parses any page, so it exits normally in both
environments. -/
theorem c7_structural_failure_not_fatal :
    (extractPostingUrlsIterate envNoAnchor url0).2 =
      .error .attributeError ∧
    (extractPostingUrlsIterate envNoHref url0).2 =
      .error (.keyError "href") ∧
    (collect_postings_run envNoAnchor).exit = .ok () ∧
    (collect_postings_run envNoHref).exit = .ok () ∧
    (collect_postings_run envNoAnchor).trace.parses = [] := by
  exact ⟨by decide, by decide, by decide, by decide, by decide⟩

/-- C8: refuted as stated — for every environment the run issues no
HTTP request at all, although there are 39 listing URLs that should
each have received exactly one GET. -/
theorem c8_no_requests_ever (env : Env) :
    (collect_postings_run env).trace.requests = [] ∧
    listingUrls.length = 39 := by
  rw [collect_postings_run_eq]
  exact ⟨rfl, by decide⟩

/-- Witness for C2 at the concrete mock environment `env3`. -/
theorem c2_witness :
    (collect_postings_run env3).printed = listingUrls.map Value.vgenEPU ∧
    (collect_postings_run env3).printed.length = 39 ∧
    (collect_postings_run env3).printed.all Value.isGen = true ∧
    (collect_postings_run env3).trace.requests = [] ∧
    (collect_postings_run env3).trace.parses = [] ∧
    (collect_postings_run env3).exit = .ok () :=
  c2_chain_single_argument_bug env3

/-- Witness for C10 at concrete string field values. -/
theorem c10_witness :
    postingInstantiate (.vstr "inst") (.vstr "a title") (.vstr "a url")
        (.vstr "a description") = .error (.typeError 4 3) ∧
    postingFormatRowCall (.vstr "inst") = .error (.typeError 1 0) :=
  c10_posting_never_instantiable (.vstr "inst") (.vstr "a title")
    (.vstr "a url") (.vstr "a description")
